import Mathlib

/-
Verification of the transaction-fetch pipeline of pricecypher: a shallow
embedding of src/pricecypher/datasets.py and
src/pricecypher/contracts/ScopeScript.py.

Python dictionaries with a fixed set of possible keys are embedded as
structures whose fields are Option-valued (a missing dict key is none).
Python exceptions are embedded as an error type carried by Except.
Machine integers are Python arbitrary-precision integers, embedded as Int.
-/

namespace PriceCypher

/-- Python exception values raised by the embedded code. -/
inductive PyErr
  | valueError (msg : String)
  | attributeError (msg : String)
deriving DecidableEq

deriving instance DecidableEq for Except

/-- A scope definition as fetched from the remote scope catalog
(spec 3: identifier, symbolic representation, dataset-native name). -/
structure Scope where
  id : Int
  representation : String
  name_dataset : String
deriving DecidableEq

/-- A scope value: identifier, owning scope identifier, literal value (spec 3). -/
structure ScopeValue where
  id : Int
  scope_id : Int
  value : String
deriving DecidableEq

/-- A column-specification dict passed to get_transactions
(datasets.py:164-170).  Presence of a dict key is Option-valued. -/
structure Column where
  scope_id : Option Int := none
  representation : Option String := none
  name_dataset : Option String := none
  filter : Option (List String) := none
  aggregate : Option String := none
  key : Option String := none
deriving DecidableEq

/-- A column dict after `_add_scopes` added the `scope` entry
(datasets.py:290).  The entry is always present but may hold Python None
when the collection lookup missed. -/
structure ColumnWithScope where
  col : Column
  scope : Option Scope
deriving DecidableEq

/-- Python truthiness of an optional string value: None and the empty
string are falsy. -/
def truthyOptStr : Option String → Bool
  | none => false
  | some s => s ≠ ""

/-- Python truthiness of an optional list value: None and the empty list
are falsy. -/
def truthyOptList : Option (List String) → Bool
  | none => false
  | some l => l ≠ []

/-- Modelled from the spec: `ScopeCollection.find_by_id` (pricecypher.collections
is not under src).  Lookup by identifier returns exactly one match or None
(spec 4.1); the first matching element models the unique match. -/
def find_by_id (scopes : List Scope) (i : Int) : Option Scope :=
  scopes.find? (fun s => s.id = i)

/-- Modelled from the spec: `ScopeCollection.find_by_repr`; lookup by symbolic
representation returns exactly one match or None (spec 4.1). -/
def find_by_repr (scopes : List Scope) (r : String) : Option Scope :=
  scopes.find? (fun s => s.representation = r)

/-- Modelled from the spec: `ScopeCollection.find_by_name_dataset`; lookup by
dataset-native name returns exactly one match or None (spec 4.1). -/
def find_by_name_dataset (scopes : List Scope) (n : String) : Option Scope :=
  scopes.find? (fun s => s.name_dataset = n)

/-- Modelled from the spec: `ScopeValueCollection.where_in` keeps the scope
values whose literal value is a member of the filter set (spec 4.2). -/
def where_in (vs : List ScopeValue) (filt : List String) : List ScopeValue :=
  vs.filter (fun v => filt.contains v.value)

/-- Modelled from the spec: `.pluck('id')` extracts the identifiers
(spec 4.2: extracting identifiers after the membership test). -/
def pluck_id (vs : List ScopeValue) : List Int :=
  vs.map (fun v => v.id)

/-- Number of selector entries present on a column: the count
`('scope_id' in column) + ('representation' in column) + ('name_dataset' in column)`
of datasets.py:277. -/
def selectorCount (c : Column) : Nat :=
  (if c.scope_id.isSome then 1 else 0)
    + (if c.representation.isSome then 1 else 0)
    + (if c.name_dataset.isSome then 1 else 0)

/-- The `add_scope` closure of `_add_scopes` (datasets.py:276-290).
If not exactly one selector is present it raises ValueError; otherwise it
branches on which selector is present and stores the collection lookup
result (possibly None) under the `scope` entry.  The final `else` branch of
the source (raise ValueError, no scope found) is kept: it is unreachable,
because the selector-count guard already raised whenever all three
selectors are absent. -/
def add_scope (scopes : List Scope) (c : Column) : Except PyErr ColumnWithScope :=
  if selectorCount c ≠ 1 then
    .error (.valueError "Not exactly one of scope_id, representation or name_dataset provided for column")
  else
    match c.scope_id, c.representation, c.name_dataset with
    | some i, _, _ => .ok ⟨c, find_by_id scopes i⟩
    | none, some r, _ => .ok ⟨c, find_by_repr scopes r⟩
    | none, none, some n => .ok ⟨c, find_by_name_dataset scopes n⟩
    | none, none, none => .error (.valueError "No scope could be found for column")

/-- `_add_scopes` (datasets.py:262-292): `list(map(add_scope, columns))`,
evaluated left to right, first exception wins. -/
def add_scopes (scopes : List Scope) : List Column → Except PyErr (List ColumnWithScope)
  | [] => .ok []
  | c :: rest =>
    Except.bind (add_scope scopes c) (fun y =>
    Except.bind (add_scopes scopes rest) (fun ys => .ok (y :: ys)))

/-- Python dict insertion `d[k] = v`: replace the value at an existing key
in place, else append the new binding at the end. -/
def dictInsert : List (Int × String) → Int → String → List (Int × String)
  | [], k, v => [(k, v)]
  | p :: d, k, v => if p.1 = k then (k, v) :: d else p :: dictInsert d k v

/-- Python dict lookup `d.get(k)`: the value at the first binding of the key. -/
def dictGet : List (Int × String) → Int → Option String
  | [], _ => none
  | p :: d, k => if p.1 = k then some p.2 else dictGet d k

/-- Loop body accumulation of `_find_scope_keys` (datasets.py:364-380).
For each column, `scope = column['scope']` followed by
`dict.get(column, 'key', f'scope_{scope.id}')`: the default string
dereferences `scope.id`, so a column whose scope entry is Python None
raises AttributeError here.  Otherwise `scope_keys[scope.id] = key`
overwrites any earlier binding of the same scope identifier. -/
def find_scope_keys_go (acc : List (Int × String)) :
    List ColumnWithScope → Except PyErr (List (Int × String))
  | [] => .ok acc
  | c :: rest =>
    match c.scope with
    | none => .error (.attributeError "NoneType object has no attribute id")
    | some s =>
      find_scope_keys_go (dictInsert acc s.id (c.col.key.getD ("scope_" ++ toString s.id))) rest

/-- `_find_scope_keys` (datasets.py:364-380): fold the columns over an
initially empty dict. -/
def find_scope_keys (cols : List ColumnWithScope) : Except PyErr (List (Int × String)) :=
  find_scope_keys_go [] cols

/-- The resolved scope identifier stored on a column, if any. -/
def scopeIdOf (c : ColumnWithScope) : Option Int :=
  c.scope.map (fun s => s.id)

/-- The key `_find_scope_keys` records for a column: the explicit `key`
entry, else the default built from the scope identifier. -/
def effKeyOf (c : ColumnWithScope) : Option String :=
  c.scope.map (fun s => c.col.key.getD ("scope_" ++ toString s.id))

/-- The list comprehension `[c['scope'].id for c in columns_with_scopes]`
of datasets.py:188: dereferences `scope.id` per column, raising
AttributeError when the stored scope is Python None. -/
def select_scopes_of : List ColumnWithScope → Except PyErr (List Int)
  | [] => .ok []
  | c :: rest =>
    match c.scope with
    | none => .error (.attributeError "NoneType object has no attribute id")
    | some s => Except.bind (select_scopes_of rest) (fun ids => .ok (s.id :: ids))

/-- The value stored by `_add_scope_values` under the `scope_values` entry.
Because `_add_scope_values` (datasets.py:294-311) is a plain def and calls
the async method `self.get_scope_values(...)` WITHOUT awaiting it
(line 309), the entry holds the coroutine object itself, never a
ScopeValueCollection. -/
inductive ScopeValuesSlot
  | coroutine
  | collection (vs : List ScopeValue)
deriving DecidableEq

/-- A column dict after `_add_scope_values` added the `scope_values` entry. -/
structure ColumnWithValues where
  cws : ColumnWithScope
  scope_values : ScopeValuesSlot
deriving DecidableEq

/-- `_add_scope_values` (datasets.py:294-311): reads `column['scope']` and
passes `scope.id` to `get_scope_values` (AttributeError when the scope is
Python None), then stores the un-awaited coroutine object under
`scope_values`. -/
def add_scope_values (c : ColumnWithScope) : Except PyErr ColumnWithValues :=
  match c.scope with
  | none => .error (.attributeError "NoneType object has no attribute id")
  | some _ => .ok ⟨c, .coroutine⟩

/-- The list comprehension of datasets.py:191-193: `_add_scope_values` is
applied to exactly the columns whose `filter` entry is truthy. -/
def add_scope_values_list : List ColumnWithScope → Except PyErr (List ColumnWithValues)
  | [] => .ok []
  | c :: rest =>
    Except.bind (add_scope_values c) (fun y =>
    Except.bind (add_scope_values_list rest) (fun ys => .ok (y :: ys)))

/-- Python truthiness of the `scope_values` entry: a coroutine object is
truthy; for the collection case (unreachable from the pipeline, which
always stores a coroutine) a collection with a length is modelled as falsy
when empty. -/
def scope_values_truthy : ScopeValuesSlot → Bool
  | .coroutine => true
  | .collection vs => vs ≠ []

/-- One iteration of the loop of `_find_scope_value_filters`
(datasets.py:324-333): skip when `filter` or `scope_values` is falsy, else
evaluate `scope_values.where_in(filt).pluck('id')`.  Attribute lookup of
`where_in` on the coroutine object stored by `_add_scope_values` raises
AttributeError. -/
def filters_of_column (c : ColumnWithValues) : Except PyErr (List Int) :=
  if truthyOptList c.cws.col.filter = false then .ok []
  else if scope_values_truthy c.scope_values = false then .ok []
  else
    match c.scope_values with
    | .coroutine => .error (.attributeError "coroutine object has no attribute where_in")
    | .collection vs => .ok (pluck_id (where_in vs (c.cws.col.filter.getD [])))

/-- `_find_scope_value_filters` (datasets.py:313-335): extend an initially
empty list over the columns, left to right, first exception wins. -/
def find_scope_value_filters : List ColumnWithValues → Except PyErr (List Int)
  | [] => .ok []
  | c :: rest =>
    Except.bind (filters_of_column c) (fun f =>
    Except.bind (find_scope_value_filters rest) (fun fs => .ok (f ++ fs)))

/-- One `scope_id`/`method` pair of the `aggregation_methods` request field
(datasets.py:357-360). -/
structure AggregationMethod where
  scope_id : Int
  method : String
deriving DecidableEq

/-- `_find_aggregation_methods` (datasets.py:337-362): collect a pair for
every column whose `aggregate` entry and `scope` entry are both truthy (a
Scope object is truthy, Python None is falsy, the empty string is falsy). -/
def find_aggregation_methods : List ColumnWithScope → List AggregationMethod
  | [] => []
  | c :: rest =>
    match c.col.aggregate, c.scope with
    | some m, some s =>
      if m = "" then find_aggregation_methods rest
      else ⟨s.id, m⟩ :: find_aggregation_methods rest
    | _, _ => find_aggregation_methods rest

/-- A second definition following the words of the spec (spec 4.2): a list
of scope-identifier and method-name pairs for every column that declared an
aggregation method, to be compared with `find_aggregation_methods`. -/
def spec_aggregation_pairs (cws : List ColumnWithScope) : List AggregationMethod :=
  cws.filterMap (fun c =>
    match c.col.aggregate, c.scope with
    | some m, some s => if m = "" then none else some ⟨s.id, m⟩
    | _, _ => none)

/-- A value passed as `start_date_time` or `end_date_time`: either an actual
datetime instance, or any other non-None Python value (the `isinstance`
checks of datasets.py:221-229 distinguish exactly these two cases). -/
inductive PyDateTimeArg
  | datetime (rep : String)
  | nonDatetime (rep : String)
deriving DecidableEq

/-- The request-data dict sent to the dataset service (datasets.py:200-229).
An Option-valued field is a conditionally present dict key. -/
structure RequestData where
  aggregate : Bool
  select_scopes : List Int
  intake_status : Option String := none
  filter_transaction_ids : Option (List Int) := none
  filter_scope_values : Option (List Int) := none
  aggregation_methods : Option (List AggregationMethod) := none
  start_date_time : Option String := none
  end_date_time : Option String := none
deriving DecidableEq

/-- Network requests issued by a get_transactions call. -/
inductive NetCall
  | metaIndex
  | scopesIndex
  | transactionsIndex
deriving DecidableEq

/-- The remote environment and instance configuration a get_transactions
call runs against: the constructor argument dss_base (when none,
`_get_dss_base` fetches the dataset listing from the user tool), the scope
listing the remote catalog returns, and the static default intake status
(datasets.py:32). -/
structure Env where
  dss_base : Option String := none
  scopes : List Scope := []
  default_dss_intake_status : Option String := none

/-- The arguments of one get_transactions call (datasets.py:145-156). -/
structure GtArgs where
  aggregate : Bool := false
  columns : List Column := []
  start_date_time : Option PyDateTimeArg := none
  end_date_time : Option PyDateTimeArg := none
  intake_status : Option String := none
  filter_transaction_ids : Option (List Int) := none

/-- Lines 200-219 of datasets.py: the request dict before the date checks.
`intake_status` falls back to the static default and is attached only when a
concrete value results; `filter_transaction_ids` is attached only when
supplied; `filter_scope_values` and `aggregation_methods` only when their
lists are non-empty. -/
def base_request (env : Env) (a : GtArgs) (sel : List Int) (filters : List Int)
    (aggm : List AggregationMethod) : RequestData :=
  { aggregate := a.aggregate
    select_scopes := sel
    intake_status :=
      match a.intake_status with
      | some s => some s
      | none => env.default_dss_intake_status
    filter_transaction_ids := a.filter_transaction_ids
    filter_scope_values := if 0 < filters.length then some filters else none
    aggregation_methods := if 0 < aggm.length then some aggm else none }

/-- Lines 221-224 of datasets.py: attach `start_date_time` when it is a
datetime instance, raise ValueError when it is any other non-None value. -/
def attach_start (rd : RequestData) : Option PyDateTimeArg → Except PyErr RequestData
  | none => .ok rd
  | some (.datetime r) => .ok { rd with start_date_time := some r }
  | some (.nonDatetime _) =>
    .error (.valueError "start_date_time should be an instance of datetime.")

/-- Lines 226-229 of datasets.py: attach `end_date_time` when it is a
datetime instance, raise ValueError when it is any other non-None value. -/
def attach_end (rd : RequestData) : Option PyDateTimeArg → Except PyErr RequestData
  | none => .ok rd
  | some (.datetime r) => .ok { rd with end_date_time := some r }
  | some (.nonDatetime _) =>
    .error (.valueError "end_date_time should be an instance of datetime.")

/-- Lines 182-235 of datasets.py in source order: resolve scopes, build the
scope-key dict, the selected scope ids, the per-filter-column scope-values
entries, the scope-value filters and the aggregation methods, then assemble
the request dict.  Returns the request dict and the scope-key dict, or the
first exception raised. -/
def get_transactions_build (env : Env) (a : GtArgs) :
    Except PyErr (RequestData × List (Int × String)) :=
  Except.bind (add_scopes env.scopes a.columns) (fun cws =>
  Except.bind (find_scope_keys cws) (fun scope_keys =>
  Except.bind (select_scopes_of cws) (fun sel =>
  Except.bind (add_scope_values_list (cws.filter (fun c => truthyOptList c.col.filter))) (fun cwv =>
  Except.bind (find_scope_value_filters cwv) (fun filters =>
  Except.bind (attach_start (base_request env a sel filters (find_aggregation_methods cws)) a.start_date_time) (fun rd1 =>
  Except.bind (attach_end rd1 a.end_date_time) (fun rd2 =>
  Except.ok (rd2, scope_keys))))))))

/-- The network requests issued before any validation can fail: the dataset
listing via `_get_dss_base` (datasets.py:182, only when no dss_base was
configured) and the scope listing fetched by `get_scopes` inside
`_add_scopes` (datasets.py:274), both awaited before the first column is
examined.  The unawaited `get_scope_values` coroutines of
`_add_scope_values` never run, so they issue no request. -/
def prefetch_netcalls (env : Env) : List NetCall :=
  (match env.dss_base with
   | some _ => []
   | none => [NetCall.metaIndex]) ++ [NetCall.scopesIndex]

/-- The full network-request trace of one get_transactions call: the
prefetch requests, then the transactions request (datasets.py:238-241) only
when building the request data raised no exception. -/
def get_transactions_netcalls (env : Env) (a : GtArgs) : List NetCall :=
  prefetch_netcalls env ++
    (match get_transactions_build env a with
     | .ok _ => [NetCall.transactionsIndex]
     | .error _ => [])

/-
Page-notification dispatch (datasets.py:231-241).

The statement `async def page_cb(page, page_nr, last_page)` at line 231
rebinds the LOCAL NAME `page_cb` of get_transactions: the parameter of the
same name (the caller-supplied sink) and the inner coroutine function share
one local slot, and the def statement executes before the fetch at line
238.  The inner body reads the same slot (a free variable resolved in the
enclosing function scope), so both the value passed to `.index(...)` at
line 241 and the value the body compares against None and schedules are the
inner function itself; the caller-supplied sink is unreachable.
-/

/-- A value the local name `page_cb` can hold inside get_transactions:
Python None, the caller-supplied sink object, or the inner coroutine
function defined at datasets.py:231. -/
inductive PageCbVal
  | pyNone
  | userSink
  | innerDef
deriving DecidableEq

/-- The content of the local `page_cb` slot when the fetch at
datasets.py:238 runs: whatever the caller passed, the def statement at line
231 has already rebound the slot to the inner function. -/
def page_cb_local_at_fetch (callerArg : PageCbVal) : PageCbVal :=
  PageCbVal.innerDef

/-- One run of the inner body (datasets.py:232-235): it reads the enclosing
slot, and unless that is None it schedules one invocation of the slot
value.  Returns the callback values invoked by the scheduled task. -/
def inner_page_cb_body (slot : PageCbVal) : List PageCbVal :=
  if slot = PageCbVal.pyNone then [] else [slot]

/-- The callback values invoked while the endpoint delivers the given
number of pages: per page, the endpoint invokes the function passed at
datasets.py:241 (the slot value), whose body then schedules one more
invocation of the slot value. -/
def sink_invocations (callerArg : PageCbVal) : Nat → List PageCbVal
  | 0 => []
  | n + 1 =>
    sink_invocations callerArg n
      ++ (page_cb_local_at_fetch callerArg :: inner_page_cb_body (page_cb_local_at_fetch callerArg))

/-- Number of invocations the caller-supplied sink receives. -/
def count_user : List PageCbVal → Nat
  | [] => 0
  | v :: rest => (if v = PageCbVal.userSink then 1 else 0) + count_user rest

/-- Dataset metadata as returned by the user-tool listing (spec 3:
identifier, remote-service base address; the creation timestamp plays no
role in the claims). -/
structure DatasetMeta where
  id : Int
  dss_url : String
deriving DecidableEq

/-- The memoization state of one Datasets instance: the `_all_meta`
attribute, None until the first fetch (datasets.py:42). -/
structure InstanceState where
  all_meta : Option (List DatasetMeta)
deriving DecidableEq

/-- `index` (datasets.py:67-78): fetch the remote listing only when
`_all_meta` is None, store it, and return the stored listing.  The third
component records whether an underlying fetch was performed. -/
def index_call (remote : List DatasetMeta) (s : InstanceState) :
    InstanceState × List DatasetMeta × Bool :=
  match s.all_meta with
  | none => (⟨some remote⟩, remote, true)
  | some l => (s, l, false)

/-- One operation on a Datasets instance: a call to index or to get_meta. -/
inductive MetaOp
  | index
  | getMeta (i : Int)
deriving DecidableEq

/-- The value one such call returns. -/
inductive MetaResult
  | listing (l : List DatasetMeta)
  | meta (d : Option DatasetMeta)
deriving DecidableEq

/-- Outcome of running a sequence of calls: final state, the values
returned in order, and the number of underlying fetches performed. -/
structure RunOut where
  state : InstanceState
  results : List MetaResult
  fetches : Nat
deriving DecidableEq

/-- Run a sequence of index and get_meta calls on one instance.  Both calls
start by awaiting `self.index()`; `get_meta` (datasets.py:80-87) then
returns `next((d for d in listing if d.id == dataset_id), None)`, the first
listed dataset with the identifier or None. -/
def run_meta_ops (remote : List DatasetMeta) : InstanceState → List MetaOp → RunOut
  | s, [] => ⟨s, [], 0⟩
  | s, op :: ops =>
    let r := index_call remote s
    let res : MetaResult :=
      match op with
      | .index => .listing r.2.1
      | .getMeta i => .meta (r.2.1.find? (fun d => d.id = i))
    let rest := run_meta_ops remote r.1 ops
    ⟨rest.state, res :: rest.results, (if r.2.2 then 1 else 0) + rest.fetches⟩

/-- Python dict lookup for the user_input dict of ScopeScript.execute:
bundles the `in` membership test and the subscript access. -/
def dictLookup {V : Type} (d : List (String × V)) (k : String) : Option V :=
  (d.find? (fun p => p.1 = k)).map (fun p => p.2)

/-- A concrete ScopeScript subclass: its implementation of the abstract
method execute_scope_script (ScopeScript.py:22-28).  Values stored in the
user_input dict have the abstract type V (the subscript result is passed on
without any runtime check), results have type R. -/
structure ScopeScriptImpl (V R : Type) where
  execute_scope_script : Option Int → String → V → R

/-- `ScopeScript.execute` (ScopeScript.py:14-20): raise when the key
transaction_ids is absent from user_input, else pass the business cell id,
the bearer token and `user_input['transaction_ids']` to
execute_scope_script and return its result. -/
def scope_script_execute {V R : Type} (impl : ScopeScriptImpl V R)
    (business_cell_id : Option Int) (bearer_token : String)
    (user_input : List (String × V)) : Except String R :=
  match dictLookup user_input "transaction_ids" with
  | none => .error "Expected input key transaction_ids not present."
  | some transaction_ids =>
    .ok (impl.execute_scope_script business_cell_id bearer_token transaction_ids)

/-
Helper lemmas.
-/

theorem exbind_ok {ε α β : Type} (a : α) (f : α → Except ε β) :
    Except.bind (Except.ok a) f = f a := rfl

theorem exbind_error {ε α β : Type} (e : ε) (f : α → Except ε β) :
    Except.bind (Except.error e) f = Except.error e := rfl

theorem dictGet_insert_self (d : List (Int × String)) (k : Int) (v : String) :
    dictGet (dictInsert d k v) k = some v := by
  induction d with
  | nil => simp [dictInsert, dictGet]
  | cons p d ih =>
    by_cases h : p.1 = k
    · simp [dictInsert, h, dictGet]
    · simp [dictInsert, h, dictGet, ih]

theorem dictGet_insert_ne (d : List (Int × String)) (k k2 : Int) (v : String)
    (h : k2 ≠ k) : dictGet (dictInsert d k v) k2 = dictGet d k2 := by
  induction d with
  | nil => simp [dictInsert, dictGet, Ne.symm h]
  | cons p d ih =>
    by_cases hp : p.1 = k
    · rw [show dictInsert (p :: d) k v = (k, v) :: d from by simp [dictInsert, hp]]
      simp [dictGet, Ne.symm h, hp]
    · rw [show dictInsert (p :: d) k v = p :: dictInsert d k v from by simp [dictInsert, hp]]
      by_cases hq : p.1 = k2 <;> simp [dictGet, hq, ih]

/-- The scope-key dict built by `_find_scope_keys` succeeds when every
column carries a non-None scope, and its value at an identifier is the
effective key of the LAST column whose scope has that identifier (the
last written binding), else whatever the accumulator held. -/
theorem find_scope_keys_go_lookup (sid : Int) (cols : List ColumnWithScope) :
    ∀ acc : List (Int × String), (∀ c ∈ cols, c.scope.isSome) →
      ∃ d, find_scope_keys_go acc cols = .ok d ∧
        dictGet d sid =
          (match cols.reverse.find? (fun c => scopeIdOf c = some sid) with
           | some c => effKeyOf c
           | none => dictGet acc sid) := by
  induction cols with
  | nil =>
    intro acc _
    exact ⟨acc, rfl, by simp⟩
  | cons c rest ih =>
    intro acc h
    obtain ⟨s, hs⟩ := Option.isSome_iff_exists.mp (h c (by simp))
    have hrest : ∀ x ∈ rest, x.scope.isSome := fun x hx => h x (by simp [hx])
    obtain ⟨d, hgo, hget⟩ :=
      ih (dictInsert acc s.id (c.col.key.getD ("scope_" ++ toString s.id))) hrest
    refine ⟨d, by simp [find_scope_keys_go, hs, hgo], ?_⟩
    rw [hget, show (c :: rest).reverse = rest.reverse ++ [c] from by simp,
      List.find?_append]
    cases hfind : rest.reverse.find? (fun c => scopeIdOf c = some sid) with
    | some c2 => simp
    | none =>
      by_cases hc : scopeIdOf c = some sid
      · have hsid : s.id = sid := by
          simpa [scopeIdOf, hs] using hc
        subst hsid
        simp [hc, effKeyOf, hs, dictGet_insert_self]
      · have hne : sid ≠ s.id := by
          intro hq
          exact hc (by simp [scopeIdOf, hs, hq])
        simp [hc, dictGet_insert_ne _ _ _ _ hne]

/-- When `_find_scope_keys` succeeds, every column carried a non-None scope. -/
theorem find_scope_keys_go_isSome (cols : List ColumnWithScope) :
    ∀ (acc d : List (Int × String)), find_scope_keys_go acc cols = .ok d →
      ∀ c ∈ cols, c.scope.isSome := by
  induction cols with
  | nil => intro _ _ _ c hc; cases hc
  | cons c rest ih =>
    intro acc d hgo x hx
    cases hs : c.scope with
    | none => rw [find_scope_keys_go, hs] at hgo; cases hgo
    | some s =>
      rw [find_scope_keys_go, hs] at hgo
      rcases List.mem_cons.mp hx with hx | hx
      · subst hx; simp [hs]
      · exact ih _ _ hgo x hx

/-- The binding `_find_scope_keys` leaves for an identifier is the
effective key of the last column resolving to it. -/
theorem find_scope_keys_last_writer
    (pre post : List ColumnWithScope) (c : ColumnWithScope) (sid : Int)
    (hall : ∀ x ∈ pre ++ c :: post, x.scope.isSome)
    (hc : scopeIdOf c = some sid)
    (hlater : ∀ x ∈ post, scopeIdOf x ≠ some sid) :
    ∃ d, find_scope_keys (pre ++ c :: post) = .ok d ∧ dictGet d sid = effKeyOf c := by
  obtain ⟨d, hgo, hget⟩ := find_scope_keys_go_lookup sid (pre ++ c :: post) [] hall
  refine ⟨d, hgo, ?_⟩
  rw [hget,
    show (pre ++ c :: post).reverse = post.reverse ++ (c :: pre.reverse) from by simp,
    List.find?_append]
  have hnone : post.reverse.find? (fun x => scopeIdOf x = some sid) = none := by
    rw [List.find?_eq_none]
    intro x hx
    simpa using hlater x (List.mem_reverse.mp hx)
  have hcons : (c :: pre.reverse).find? (fun x => scopeIdOf x = some sid) = some c :=
    List.find?_cons_of_pos _ (by simp [hc])
  simp [hnone, hcons]

/-- C6: for every ordered column list in which two columns resolve to the
same scope identifier but carry different keys, and no still later column
resolves to that identifier, the scope-key map associates the identifier
with the later column's key (last-write-wins, not an error). -/
theorem C6_scope_key_last_write_wins
    (pre post : List ColumnWithScope) (ci cj : ColumnWithScope)
    (sid : Int) (k1 k2 : String)
    (hmem : ci ∈ pre)
    (hall : ∀ x ∈ pre ++ cj :: post, x.scope.isSome)
    (hci : scopeIdOf ci = some sid) (hcj : scopeIdOf cj = some sid)
    (hk1 : ci.col.key = some k1) (hk2 : cj.col.key = some k2) (hne : k1 ≠ k2)
    (hlater : ∀ x ∈ post, scopeIdOf x ≠ some sid) :
    ∃ d, find_scope_keys (pre ++ cj :: post) = .ok d ∧ dictGet d sid = some k2 := by
  obtain ⟨d, hgo, hget⟩ := find_scope_keys_last_writer pre post cj sid hall hcj hlater
  refine ⟨d, hgo, ?_⟩
  obtain ⟨s, hs⟩ := Option.isSome_iff_exists.mp (hall cj (by simp))
  rw [hget]
  simp [effKeyOf, hs, hk2]

/-- Witness for C6 at a concrete input: two columns both resolving to scope
identifier 1, with keys "first" and "second"; the map holds "second". -/
theorem C6_scope_key_last_write_wins_witness :
    ∃ d, find_scope_keys
        [⟨{ scope_id := some 1, key := some "first" }, some ⟨1, "r", "n"⟩⟩,
         ⟨{ scope_id := some 1, key := some "second" }, some ⟨1, "r", "n"⟩⟩] = .ok d ∧
      dictGet d 1 = some "second" :=
  C6_scope_key_last_write_wins
    [⟨{ scope_id := some 1, key := some "first" }, some ⟨1, "r", "n"⟩⟩] []
    ⟨{ scope_id := some 1, key := some "first" }, some ⟨1, "r", "n"⟩⟩
    ⟨{ scope_id := some 1, key := some "second" }, some ⟨1, "r", "n"⟩⟩
    1 "first" "second" (by decide) (by decide) (by decide) (by decide)
    (by decide) (by decide) (by decide) (by decide)

/-- C9 counterexample: a column without an explicit key followed by a later
column resolving to the same scope with an explicit key.  The claim, as
stated, requires the map to assign scope 1 the default name "scope_1"; the
code assigns "x". -/
theorem C9_counterexample_default_key_overwritten :
    find_scope_keys
        [⟨{ scope_id := some 1 }, some ⟨1, "r", "n"⟩⟩,
         ⟨{ scope_id := some 1, key := some "x" }, some ⟨1, "r", "n"⟩⟩] = .ok [(1, "x")] ∧
      dictGet [(1, "x")] 1 = some "x" ∧
      some "x" ≠ some ("scope_" ++ toString (1 : Int)) := by
  decide

/-- C9 as amended: for every column with a resolved scope that does not
carry an explicit key field AND to whose scope no later column resolves,
the scope-key map assigns that scope the default output column name formed
by the literal "scope_" followed by the scope identifier. -/
theorem C9_default_key_for_last_column
    (pre post : List ColumnWithScope) (c : ColumnWithScope) (sid : Int)
    (hall : ∀ x ∈ pre ++ c :: post, x.scope.isSome)
    (hc : scopeIdOf c = some sid) (hkey : c.col.key = none)
    (hlater : ∀ x ∈ post, scopeIdOf x ≠ some sid) :
    ∃ d, find_scope_keys (pre ++ c :: post) = .ok d ∧
      dictGet d sid = some ("scope_" ++ toString sid) := by
  obtain ⟨d, hgo, hget⟩ := find_scope_keys_last_writer pre post c sid hall hc hlater
  refine ⟨d, hgo, ?_⟩
  obtain ⟨s, hs⟩ := Option.isSome_iff_exists.mp (hall c (by simp))
  have hsid : s.id = sid := by simpa [scopeIdOf, hs] using hc
  rw [hget]
  simp [effKeyOf, hs, hkey, hsid]

/-- Witness for C9 as amended at a concrete input: a single keyless column
resolving to scope 7 yields the default name. -/
theorem C9_default_key_for_last_column_witness :
    ∃ d, find_scope_keys [⟨{ scope_id := some 7 }, some ⟨7, "r", "n"⟩⟩] = .ok d ∧
      dictGet d 7 = some ("scope_" ++ toString (7 : Int)) :=
  C9_default_key_for_last_column [] []
    ⟨{ scope_id := some 7 }, some ⟨7, "r", "n"⟩⟩ 7
    (by decide) (by decide) (by decide) (by decide)

theorem count_user_append (l1 l2 : List PageCbVal) :
    count_user (l1 ++ l2) = count_user l1 + count_user l2 := by
  induction l1 with
  | nil => simp [count_user]
  | cons v l ih => simp [count_user, ih, Nat.add_assoc]

/-- C1: the claim requires the caller-supplied sink to be invoked once per
page with the assembled rows; in the code the statement
`async def page_cb(...)` at datasets.py:231 rebinds the local name
`page_cb`, shadowing the parameter of the same name, so the value passed to
the endpoint and the value the wrapper schedules are both the wrapper
itself: with a sink supplied and one page delivered, both dispatched
invocations target the inner wrapper and the sink is invoked zero times,
for any number of pages. -/
theorem C1_page_callback_never_invoked :
    sink_invocations PageCbVal.userSink 1 = [PageCbVal.innerDef, PageCbVal.innerDef] ∧
    (∀ pages : Nat, count_user (sink_invocations PageCbVal.userSink pages) = 0) := by
  refine ⟨by decide, ?_⟩
  intro pages
  induction pages with
  | zero => rfl
  | succ n ih =>
    rw [sink_invocations, count_user_append, ih]
    decide

/-- C2: the claim requires the request payload to carry
`filter_scope_values` whenever a column declares a filter with resolvable
scope values; in the code `_add_scope_values` stores the un-awaited
coroutine returned by `get_scope_values`, so `_find_scope_value_filters`
raises AttributeError for every column with a truthy filter and no payload
is ever built in that case, while a call without filters builds a payload
without the key. -/
theorem C2_filter_scope_values_never_sent :
    (get_transactions_build
        { dss_base := some "https://dss.example", scopes := [⟨1, "cost", "cost nm"⟩] }
        { aggregate := false,
          columns := [{ representation := some "cost", filter := some ["A", "B"] }] } =
      .error (.attributeError "coroutine object has no attribute where_in")) ∧
    (get_transactions_build
        { dss_base := some "https://dss.example", scopes := [⟨1, "cost", "cost nm"⟩] }
        { aggregate := false, columns := [{ representation := some "cost" }] } =
      .ok ({ aggregate := false, select_scopes := [1] }, [(1, "scope_1")])) := by
  decide

/-- C4: the claim requires a resolution miss to make the resolution
operation fail with a lookup failure; in the code `_add_scopes` returns the
column with the entry `scope` set to Python None (the branch raising
ValueError, no scope could be found, is unreachable because the elif chain
is exhausted by the selector-count guard), and the call then raises
AttributeError on the None dereference in `_find_scope_keys`. -/
theorem C4_resolution_miss_not_a_lookup_failure :
    (add_scopes [⟨1, "r", "n"⟩] [{ scope_id := some 99 }] =
      .ok [⟨{ scope_id := some 99 }, none⟩]) ∧
    (get_transactions_build { dss_base := some "b", scopes := [⟨1, "r", "n"⟩] }
        { aggregate := false, columns := [{ scope_id := some 99 }] } =
      .error (.attributeError "NoneType object has no attribute id")) := by
  decide

/-- A column with exactly one selector makes add_scope succeed (with the
lookup result, possibly None, stored under scope). -/
theorem add_scope_ok_of_one (scopes : List Scope) (c : Column)
    (h : selectorCount c = 1) : ∃ y, add_scope scopes c = .ok y := by
  rw [add_scope, if_neg (by simp [h])]
  rcases hsi : c.scope_id with _ | i
  · rcases hr : c.representation with _ | r
    · rcases hn : c.name_dataset with _ | n
      · exfalso; simp [selectorCount, hsi, hr, hn] at h
      · exact ⟨⟨c, find_by_name_dataset scopes n⟩, by simp [hsi, hr, hn]⟩
    · exact ⟨⟨c, find_by_repr scopes r⟩, by simp [hsi, hr]⟩
  · exact ⟨⟨c, find_by_id scopes i⟩, by simp [hsi]⟩

/-- When some column has not exactly one selector, `_add_scopes` raises the
selector ValueError (whichever such column is reached first raises the same
error). -/
theorem add_scopes_error_of_bad_selector (scopes : List Scope) (columns : List Column)
    (h : ∃ c ∈ columns, selectorCount c ≠ 1) :
    add_scopes scopes columns =
      .error (.valueError "Not exactly one of scope_id, representation or name_dataset provided for column") := by
  induction columns with
  | nil => rcases h with ⟨c, hc, _⟩; cases hc
  | cons c rest ih =>
    by_cases hc : selectorCount c = 1
    · obtain ⟨y, hy⟩ := add_scope_ok_of_one scopes c hc
      have hrest : ∃ x ∈ rest, selectorCount x ≠ 1 := by
        rcases h with ⟨x, hx, hxne⟩
        rcases List.mem_cons.mp hx with rfl | hx
        · exact absurd hc hxne
        · exact ⟨x, hx, hxne⟩
      rw [add_scopes, hy, exbind_ok, ih hrest, exbind_error]
    · rw [add_scopes, show add_scope scopes c =
          .error (.valueError "Not exactly one of scope_id, representation or name_dataset provided for column")
          from by rw [add_scope, if_pos hc], exbind_error]

/-- An exception while building the request data means the transactions
request of datasets.py:238 is never issued. -/
theorem no_transactions_call_of_error (env : Env) (a : GtArgs) (e : PyErr)
    (h : get_transactions_build env a = .error e) :
    NetCall.transactionsIndex ∉ get_transactions_netcalls env a := by
  rw [get_transactions_netcalls, h]
  cases hd : env.dss_base <;> simp [prefetch_netcalls, hd]

/-- C3 counterexample: a call whose single column carries no selector at
all.  The claim, as stated, requires that no network call is made; the code
raises the validation ValueError but only after the scope listing has been
fetched, so the network trace is non-empty. -/
theorem C3_counterexample_network_call_before_validation :
    (get_transactions_build { dss_base := some "b", scopes := [⟨1, "r", "n"⟩] }
        { aggregate := false, columns := [{}] } =
      .error (.valueError "Not exactly one of scope_id, representation or name_dataset provided for column")) ∧
    get_transactions_netcalls { dss_base := some "b", scopes := [⟨1, "r", "n"⟩] }
        { aggregate := false, columns := [{}] } = [NetCall.scopesIndex] ∧
    get_transactions_netcalls { dss_base := some "b", scopes := [⟨1, "r", "n"⟩] }
        { aggregate := false, columns := [{}] } ≠ [] := by
  decide

/-- C3 as amended: for every column list given to get_transactions in which
some column has zero or more than one of scope_id, representation and
name_dataset set, the operation raises a validation failure and the
transactions request is never issued (the scope listing, and when no
dss_base is configured the dataset listing, have however already been
fetched before validation). -/
theorem C3_validation_failure_before_transactions_request
    (env : Env) (a : GtArgs) (h : ∃ c ∈ a.columns, selectorCount c ≠ 1) :
    get_transactions_build env a =
      .error (.valueError "Not exactly one of scope_id, representation or name_dataset provided for column") ∧
    NetCall.transactionsIndex ∉ get_transactions_netcalls env a := by
  have hbuild : get_transactions_build env a =
      .error (.valueError "Not exactly one of scope_id, representation or name_dataset provided for column") := by
    rw [get_transactions_build, add_scopes_error_of_bad_selector env.scopes a.columns h,
      exbind_error]
  exact ⟨hbuild, no_transactions_call_of_error env a _ hbuild⟩

/-- Witness for C3 as amended at a concrete input: one column with both a
scope_id and a representation. -/
theorem C3_validation_failure_before_transactions_request_witness :
    get_transactions_build { dss_base := some "b", scopes := [⟨1, "r", "n"⟩] }
        { aggregate := false, columns := [{ scope_id := some 1, representation := some "r" }] } =
      .error (.valueError "Not exactly one of scope_id, representation or name_dataset provided for column") ∧
    NetCall.transactionsIndex ∉
      get_transactions_netcalls { dss_base := some "b", scopes := [⟨1, "r", "n"⟩] }
        { aggregate := false, columns := [{ scope_id := some 1, representation := some "r" }] } :=
  C3_validation_failure_before_transactions_request _ _ (by decide)

/-- C5 counterexample: a call passing a non-datetime start boundary with an
otherwise valid column.  The claim, as stated, requires the validation
failure to be raised before any request is sent; the code raises the
ValueError but the scope listing has already been fetched, so the network
trace is non-empty. -/
theorem C5_counterexample_request_before_validation :
    (get_transactions_build { dss_base := some "b", scopes := [⟨1, "r", "n"⟩] }
        { aggregate := false, columns := [{ scope_id := some 1 }],
          start_date_time := some (.nonDatetime "2020-01-01") } =
      .error (.valueError "start_date_time should be an instance of datetime.")) ∧
    get_transactions_netcalls { dss_base := some "b", scopes := [⟨1, "r", "n"⟩] }
        { aggregate := false, columns := [{ scope_id := some 1 }],
          start_date_time := some (.nonDatetime "2020-01-01") } = [NetCall.scopesIndex] ∧
    get_transactions_netcalls { dss_base := some "b", scopes := [⟨1, "r", "n"⟩] }
        { aggregate := false, columns := [{ scope_id := some 1 }],
          start_date_time := some (.nonDatetime "2020-01-01") } ≠ [] := by
  decide

/-- C5 as amended: for every get_transactions call whose columns resolve
and declare no filter, if start_date_time or end_date_time is supplied and
is not a datetime instance, the operation raises the corresponding
ValueError and the transactions request is never issued (the scope listing
has however already been fetched before validation). -/
theorem C5_malformed_datetime_fails_before_transactions_request
    (env : Env) (a : GtArgs) (cws : List ColumnWithScope)
    (sk : List (Int × String)) (sel : List Int) (r : String)
    (h1 : add_scopes env.scopes a.columns = .ok cws)
    (h2 : find_scope_keys cws = .ok sk)
    (h3 : select_scopes_of cws = .ok sel)
    (h4 : cws.filter (fun c => truthyOptList c.col.filter) = [])
    (h5 : a.start_date_time = some (.nonDatetime r) ∨
      a.end_date_time = some (.nonDatetime r)) :
    (get_transactions_build env a =
        .error (.valueError "start_date_time should be an instance of datetime.") ∨
     get_transactions_build env a =
        .error (.valueError "end_date_time should be an instance of datetime.")) ∧
    NetCall.transactionsIndex ∉ get_transactions_netcalls env a := by
  have hbuild : get_transactions_build env a =
      Except.bind (attach_start
          (base_request env a sel [] (find_aggregation_methods cws)) a.start_date_time)
        (fun rd1 => Except.bind (attach_end rd1 a.end_date_time)
          (fun rd2 => Except.ok (rd2, sk))) := by
    rw [get_transactions_build, h1, exbind_ok, h2, exbind_ok, h3, exbind_ok, h4]
    rw [show add_scope_values_list [] = .ok [] from rfl, exbind_ok,
      show find_scope_value_filters [] = .ok [] from rfl, exbind_ok]
  have hdone :
      get_transactions_build env a =
          .error (.valueError "start_date_time should be an instance of datetime.") ∨
      get_transactions_build env a =
          .error (.valueError "end_date_time should be an instance of datetime.") := by
    rcases hst : a.start_date_time with _ | st
    · rcases h5 with h5 | h5
      · rw [hst] at h5; cases h5
      · refine Or.inr ?_
        rw [hbuild, hst, show attach_start
              (base_request env a sel [] (find_aggregation_methods cws)) none =
            .ok (base_request env a sel [] (find_aggregation_methods cws)) from rfl,
          exbind_ok, h5]
        rfl
    · cases st with
      | nonDatetime rep =>
        refine Or.inl ?_
        rw [hbuild, hst]
        rfl
      | datetime rep =>
        rcases h5 with h5 | h5
        · rw [hst] at h5; cases h5
        · refine Or.inr ?_
          rw [hbuild, hst, show attach_start
                (base_request env a sel [] (find_aggregation_methods cws))
                (some (.datetime rep)) =
              .ok { base_request env a sel [] (find_aggregation_methods cws) with
                start_date_time := some rep } from rfl,
            exbind_ok, h5]
          rfl
  refine ⟨hdone, ?_⟩
  rcases hdone with hdone | hdone
  · exact no_transactions_call_of_error env a _ hdone
  · exact no_transactions_call_of_error env a _ hdone

/-- Witness for C5 as amended at a concrete input: a valid filterless
column and a non-datetime end boundary. -/
theorem C5_malformed_datetime_fails_before_transactions_request_witness :
    (get_transactions_build { dss_base := some "b", scopes := [⟨1, "r", "n"⟩] }
        { aggregate := false, columns := [{ scope_id := some 1 }],
          end_date_time := some (.nonDatetime "not a datetime") } =
        .error (.valueError "start_date_time should be an instance of datetime.") ∨
     get_transactions_build { dss_base := some "b", scopes := [⟨1, "r", "n"⟩] }
        { aggregate := false, columns := [{ scope_id := some 1 }],
          end_date_time := some (.nonDatetime "not a datetime") } =
        .error (.valueError "end_date_time should be an instance of datetime.")) ∧
    NetCall.transactionsIndex ∉
      get_transactions_netcalls { dss_base := some "b", scopes := [⟨1, "r", "n"⟩] }
        { aggregate := false, columns := [{ scope_id := some 1 }],
          end_date_time := some (.nonDatetime "not a datetime") } :=
  C5_malformed_datetime_fails_before_transactions_request _ _
    [⟨{ scope_id := some 1 }, some ⟨1, "r", "n"⟩⟩] [(1, "scope_1")] [1] "not a datetime"
    (by decide) (by decide) (by decide) (by decide) (Or.inr (by decide))

/-- The loop of `_find_aggregation_methods` computes exactly the pair list
described by the spec words. -/
theorem find_aggregation_methods_eq_spec (cws : List ColumnWithScope) :
    find_aggregation_methods cws = spec_aggregation_pairs cws := by
  induction cws with
  | nil => rfl
  | cons c rest ih =>
    cases hm : c.col.aggregate with
    | none =>
      simpa [find_aggregation_methods, spec_aggregation_pairs, List.filterMap_cons, hm]
        using ih
    | some m =>
      cases hs : c.scope with
      | none =>
        simpa [find_aggregation_methods, spec_aggregation_pairs, List.filterMap_cons, hm, hs]
          using ih
      | some s =>
        by_cases he : m = "" <;>
          simp [find_aggregation_methods, spec_aggregation_pairs, List.filterMap_cons,
            hm, hs, he, ih]

/-- When every column carries a non-None scope, the aggregation pair list
is empty exactly when no column has a truthy aggregate entry. -/
theorem find_aggregation_methods_eq_nil_iff (cws : List ColumnWithScope)
    (hall : ∀ c ∈ cws, c.scope.isSome) :
    find_aggregation_methods cws = [] ↔
      ∀ c ∈ cws, truthyOptStr c.col.aggregate = false := by
  induction cws with
  | nil => simp [find_aggregation_methods]
  | cons c rest ih =>
    obtain ⟨s, hs⟩ := Option.isSome_iff_exists.mp (hall c (by simp))
    have ihr := ih (fun x hx => hall x (by simp [hx]))
    cases hm : c.col.aggregate with
    | none => simp [find_aggregation_methods, hm, hs, truthyOptStr, ihr]
    | some m =>
      by_cases he : m = "" <;>
        simp [find_aggregation_methods, hm, hs, he, truthyOptStr, ihr]

/-- C8: for every get_transactions call that builds a request payload, the
payload carries the key aggregation_methods exactly when some column
declares an aggregation method (a truthy aggregate entry), and in that case
its value is the list of pairs of resolved scope identifier and declared
method name, one for every column that declared a method. -/
theorem C8_aggregation_methods_conditional
    (env : Env) (a : GtArgs) (cws : List ColumnWithScope)
    (rd : RequestData) (sk : List (Int × String))
    (hadd : add_scopes env.scopes a.columns = .ok cws)
    (hok : get_transactions_build env a = .ok (rd, sk)) :
    (rd.aggregation_methods ≠ none ↔
      ∃ c ∈ cws, truthyOptStr c.col.aggregate = true) ∧
    rd.aggregation_methods =
      (if spec_aggregation_pairs cws = [] then none
       else some (spec_aggregation_pairs cws)) := by
  rw [get_transactions_build, hadd, exbind_ok] at hok
  cases hsk : find_scope_keys cws with
  | error e => rw [hsk, exbind_error] at hok; cases hok
  | ok sk2 =>
  rw [hsk, exbind_ok] at hok
  cases hsel : select_scopes_of cws with
  | error e => rw [hsel, exbind_error] at hok; cases hok
  | ok sel =>
  rw [hsel, exbind_ok] at hok
  cases hvals : add_scope_values_list (cws.filter fun c => truthyOptList c.col.filter) with
  | error e => rw [hvals, exbind_error] at hok; cases hok
  | ok cwv =>
  rw [hvals, exbind_ok] at hok
  cases hfil : find_scope_value_filters cwv with
  | error e => rw [hfil, exbind_error] at hok; cases hok
  | ok filters =>
  rw [hfil, exbind_ok] at hok
  have hagg : rd.aggregation_methods =
      (if 0 < (find_aggregation_methods cws).length
       then some (find_aggregation_methods cws) else none) := by
    cases hst : a.start_date_time with
    | some st =>
      cases st with
      | nonDatetime rep => rw [hst] at hok; cases hok
      | datetime rep =>
        rw [hst, show attach_start (base_request env a sel filters (find_aggregation_methods cws))
              (some (.datetime rep)) =
            .ok { base_request env a sel filters (find_aggregation_methods cws) with
              start_date_time := some rep } from rfl, exbind_ok] at hok
        cases hen : a.end_date_time with
        | some en =>
          cases en with
          | nonDatetime rep2 => rw [hen] at hok; cases hok
          | datetime rep2 =>
            rw [hen] at hok
            cases hok
            rfl
        | none =>
          rw [hen] at hok
          cases hok
          rfl
    | none =>
      rw [hst, show attach_start (base_request env a sel filters (find_aggregation_methods cws))
            none = .ok (base_request env a sel filters (find_aggregation_methods cws))
          from rfl, exbind_ok] at hok
      cases hen : a.end_date_time with
      | some en =>
        cases en with
        | nonDatetime rep2 => rw [hen] at hok; cases hok
        | datetime rep2 =>
          rw [hen] at hok
          cases hok
          rfl
      | none =>
        rw [hen] at hok
        cases hok
        rfl
  have hall : ∀ c ∈ cws, c.scope.isSome := find_scope_keys_go_isSome cws [] sk2 hsk
  constructor
  · constructor
    · intro hne
      by_cases hnil : find_aggregation_methods cws = []
      · rw [hagg, hnil] at hne
        simp at hne
      · have hnot := (not_iff_not.mpr (find_aggregation_methods_eq_nil_iff cws hall)).mp hnil
        push_neg at hnot
        obtain ⟨c, hc, ht⟩ := hnot
        exact ⟨c, hc, by simpa using ht⟩
    · rintro ⟨c, hc, ht⟩
      have hnil : find_aggregation_methods cws ≠ [] := by
        intro hn
        have := (find_aggregation_methods_eq_nil_iff cws hall).mp hn c hc
        rw [ht] at this
        cases this
      rw [hagg, if_pos (List.length_pos.mpr hnil)]
      simp
  · rw [hagg, find_aggregation_methods_eq_spec]
    by_cases hnil : spec_aggregation_pairs cws = []
    · simp [hnil]
    · simp [hnil, List.length_pos.mpr hnil]

/-- Witness for C8 at a concrete input: a successful call with one column
declaring the method "sum". -/
theorem C8_aggregation_methods_conditional_witness :
    ((({ aggregate := true, select_scopes := [1],
          aggregation_methods := some [⟨1, "sum"⟩] } : RequestData).aggregation_methods ≠ none ↔
        ∃ c ∈ [(⟨{ scope_id := some 1, aggregate := some "sum" }, some ⟨1, "r", "n"⟩⟩ : ColumnWithScope)],
          truthyOptStr c.col.aggregate = true) ∧
      ({ aggregate := true, select_scopes := [1],
          aggregation_methods := some [⟨1, "sum"⟩] } : RequestData).aggregation_methods =
        (if spec_aggregation_pairs
            [⟨{ scope_id := some 1, aggregate := some "sum" }, some ⟨1, "r", "n"⟩⟩] = [] then none
         else some (spec_aggregation_pairs
            [⟨{ scope_id := some 1, aggregate := some "sum" }, some ⟨1, "r", "n"⟩⟩]))) :=
  C8_aggregation_methods_conditional
    { dss_base := some "b", scopes := [⟨1, "r", "n"⟩] }
    { aggregate := true, columns := [{ scope_id := some 1, aggregate := some "sum" }] }
    [⟨{ scope_id := some 1, aggregate := some "sum" }, some ⟨1, "r", "n"⟩⟩]
    { aggregate := true, select_scopes := [1], aggregation_methods := some [⟨1, "sum"⟩] }
    [(1, "scope_1")] (by decide) (by decide)

/-- On an instance whose listing is already memoized, any further sequence
of index and get_meta calls performs no fetch and returns the memoized
answers. -/
theorem run_meta_ops_cached (remote : List DatasetMeta) (ops : List MetaOp) :
    run_meta_ops remote ⟨some remote⟩ ops =
      ⟨⟨some remote⟩,
       ops.map (fun op => match op with
         | .index => MetaResult.listing remote
         | .getMeta i => MetaResult.meta (remote.find? (fun d => d.id = i))),
       0⟩ := by
  induction ops with
  | nil => rfl
  | cons op rest ih => cases op <;> simp [run_meta_ops, index_call, ih]

/-- C7: for every instance and every non-empty sequence of index and
get_meta calls starting from a fresh instance, the underlying remote
dataset listing is fetched exactly once, every index call returns the
memoized listing, and every get_meta call returns the first listed dataset
with the requested identifier, or None when no dataset matches. -/
theorem C7_metadata_fetched_once (remote : List DatasetMeta) (ops : List MetaOp)
    (h : ops ≠ []) :
    (run_meta_ops remote ⟨none⟩ ops).fetches = 1 ∧
    (run_meta_ops remote ⟨none⟩ ops).results =
      ops.map (fun op => match op with
        | .index => MetaResult.listing remote
        | .getMeta i => MetaResult.meta (remote.find? (fun d => d.id = i))) := by
  cases ops with
  | nil => cases h rfl
  | cons op rest =>
    cases op <;> simp [run_meta_ops, index_call, run_meta_ops_cached]

/-- Witness for C7 at a concrete input: one index call followed by one
get_meta call on a listing carrying two datasets with identifiers 1 and 2. -/
theorem C7_metadata_fetched_once_witness :
    (run_meta_ops [⟨1, "u"⟩, ⟨2, "v"⟩] ⟨none⟩ [MetaOp.index, MetaOp.getMeta 1]).fetches = 1 ∧
    (run_meta_ops [⟨1, "u"⟩, ⟨2, "v"⟩] ⟨none⟩ [MetaOp.index, MetaOp.getMeta 1]).results =
      [MetaOp.index, MetaOp.getMeta 1].map (fun op => match op with
        | .index => MetaResult.listing [⟨1, "u"⟩, ⟨2, "v"⟩]
        | .getMeta i => MetaResult.meta
            (([⟨1, "u"⟩, ⟨2, "v"⟩] : List DatasetMeta).find? (fun d => d.id = i))) :=
  C7_metadata_fetched_once [⟨1, "u"⟩, ⟨2, "v"⟩] [MetaOp.index, MetaOp.getMeta 1] (by decide)

/-- C10: for every user_input dict, ScopeScript.execute raises exactly when
the key transaction_ids is absent, and otherwise returns exactly the result
of execute_scope_script applied to the business cell id, the bearer token
and the value stored under transaction_ids. -/
theorem C10_scope_script_execute_contract {V R : Type} (impl : ScopeScriptImpl V R)
    (bc : Option Int) (tok : String) (ui : List (String × V)) :
    ((∃ e, scope_script_execute impl bc tok ui = .error e) ↔
      dictLookup ui "transaction_ids" = none) ∧
    (∀ v, dictLookup ui "transaction_ids" = some v →
      scope_script_execute impl bc tok ui = .ok (impl.execute_scope_script bc tok v)) := by
  constructor
  · constructor
    · rintro ⟨e, he⟩
      cases hl : dictLookup ui "transaction_ids" with
      | none => rfl
      | some v => rw [scope_script_execute, hl] at he; cases he
    · intro hl
      exact ⟨"Expected input key transaction_ids not present.",
        by rw [scope_script_execute, hl]⟩
  · intro v hl
    rw [scope_script_execute, hl]

/-- Witness for C10 at a concrete input: a dict carrying transaction_ids
and an implementation returning the list length. -/
theorem C10_scope_script_execute_contract_witness :
    ((∃ e, scope_script_execute
          (⟨fun _ _ l => List.length l⟩ : ScopeScriptImpl (List Int) Nat)
          none "tok" [("transaction_ids", [5, 6])] = .error e) ↔
      dictLookup [("transaction_ids", ([5, 6] : List Int))] "transaction_ids" = none) ∧
    (∀ v, dictLookup [("transaction_ids", ([5, 6] : List Int))] "transaction_ids" = some v →
      scope_script_execute (⟨fun _ _ l => List.length l⟩ : ScopeScriptImpl (List Int) Nat)
          none "tok" [("transaction_ids", [5, 6])] =
        .ok ((⟨fun _ _ l => List.length l⟩ : ScopeScriptImpl (List Int) Nat).execute_scope_script
          none "tok" v)) :=
  C10_scope_script_execute_contract
    (⟨fun _ _ l => List.length l⟩ : ScopeScriptImpl (List Int) Nat)
    none "tok" [("transaction_ids", [5, 6])]

end PriceCypher

